import Mathlib

/-!
Shallow embedding of the trivia backend's Question Retrieval & Quiz Selection
Engine (src/backend/flaskr/__init__.py).  Texts are modelled as `List Char`
(Python `str`), machine integers as `Nat`/`Int`, the stored question
collection as a list together with the next identifier the persistence layer
would assign, and each endpoint as a pure function from its inputs to the
response payload it serialises (`Except Nat _` models `abort(code)` caught by
the registered error handlers).  `random.choice` is modelled by an explicit
pick index: every value of the index is a possible draw.
-/

namespace Trivia

/-- Resolution of one Python slice bound `i` against a list of length `len`:
a negative bound counts from the end (clamped below at 0), a non-negative
bound is clamped above at `len`. -/
def pyIndex (len : Nat) (i : Int) : Nat :=
  if i < 0 then ((len : Int) + i).toNat else min i.toNat len

/-- Python's `xs[start:stop]` on a list. -/
def pySlice {α : Type} (start stop : Int) (xs : List α) : List α :=
  let s := pyIndex xs.length start
  let e := pyIndex xs.length stop
  (xs.drop s).take (e - s)

/-- Decimal digits of `n`, least significant first, as characters; `fuel`
bounds the recursion and any `fuel ≥ n` is enough since `n / 10 < n` for
`n ≠ 0`.  Structural recursion on the fuel keeps the definition
kernel-reducible. -/
def natDigitsRevFuel : Nat → Nat → List Char
  | _, 0 => []
  | 0, _ + 1 => []
  | f + 1, n + 1 => Nat.digitChar ((n + 1) % 10) :: natDigitsRevFuel f ((n + 1) / 10)

/-- Python's `str(n)` for a non-negative integer: its decimal rendering. -/
def pyStr (n : Nat) : List Char :=
  if n = 0 then ['0'] else (natDigitsRevFuel n n).reverse

/-- Numeric value of a decimal digit character. -/
def digitVal (c : Char) : Nat := c.toNat - 48

/-- Value of a least-significant-first digit string. -/
def revDigitsVal : List Char → Nat
  | [] => 0
  | c :: cs => digitVal c + 10 * revDigitsVal cs

structure Question where
  id : Nat
  question : List Char
  answer : List Char
  category : Nat
  difficulty : Int
deriving DecidableEq, Repr

structure Category where
  id : Nat
  type : List Char
deriving DecidableEq, Repr

/-- Modelled from the spec: `Question.format` (models.py is not among the
repository's files) renders the five attributes `id, question, answer,
category, difficulty`, which are exactly the fields of `Question`, so the
formatted record is the record itself, rebuilt field by field. -/
def Question.format (q : Question) : Question :=
  ⟨q.id, q.question, q.answer, q.category, q.difficulty⟩

/-- Modelled from the spec: the stored question collection behind the
persistence collaborator (models.py is not among the repository's files),
as the list of stored rows plus the next identifier the database's atomic
id-generation would assign (§5: id uniqueness is the collaborator's duty). -/
structure TriviaDB where
  questions : List Question
  nextId : Nat
deriving DecidableEq, Repr

/-- Insertion step of `ORDER BY key ASC`. -/
def insertByKey {α : Type} (key : α → Nat) (x : α) : List α → List α
  | [] => [x]
  | y :: ys => if key x ≤ key y then x :: y :: ys else y :: insertByKey key x ys

/-- SQL `ORDER BY key ASC` (a stable insertion sort; structural so that it
reduces on concrete inputs). -/
def sortByKey {α : Type} (key : α → Nat) : List α → List α
  | [] => []
  | x :: xs => insertByKey key x (sortByKey key xs)

/-- SQL `LIKE` matching of a whole string against a pattern in which `%`
matches any sequence of characters and `_` any single character; `fuel`
bounds the recursion, and every recursive call shrinks `p.length + s.length`,
so any fuel above that sum is enough. -/
def likeMatchFuel : Nat → List Char → List Char → Bool
  | 0, _, _ => false
  | _ + 1, [], s => s.isEmpty
  | f + 1, p :: ps, s =>
    if p = '%' then
      (likeMatchFuel f ps s ||
        match s with
        | [] => false
        | _ :: s2 => likeMatchFuel f (p :: ps) s2)
    else
      match s with
      | [] => false
      | c :: s2 => (p = '_' || p = c) && likeMatchFuel f ps s2

/-- SQL `LIKE` with adequate fuel. -/
def likeMatch (p s : List Char) : Bool :=
  likeMatchFuel (p.length + s.length + 1) p s

/-- Python's `str.lower` (ASCII, as the stored texts here). -/
def pyLower (s : List Char) : List Char := s.map Char.toLower

/-- SQL `ILIKE`: case-insensitive `LIKE`, i.e. `LIKE` after lowering the
text and the pattern. -/
def ilike (text pattern : List Char) : Bool :=
  likeMatch (pyLower pattern) (pyLower text)

/-- Claim-side helper (P2's wording, not the code's): does `t` start `s`? -/
def startsWithCh : List Char → List Char → Bool
  | [], _ => true
  | _ :: _, [] => false
  | c :: t, d :: s => c = d && startsWithCh t s

/-- Claim-side helper (P2's wording, not the code's): is `t` a contiguous
substring of `s`? -/
def containsSub (t s : List Char) : Bool :=
  startsWithCh t s ||
    match s with
    | [] => false
    | _ :: s2 => containsSub t s2

/-- Comparison `Question.category == str(category_id)` of the source
(lines 148 and 173).  Modelled from the spec for the stored side: models.py
is not among the repository's files, and per the spec the stored `category`
attribute is the referenced Category's identifier, which the database
compares with the textual rendering `str(category_id)` after coercing both
sides to one representation; both sides are therefore compared as decimal
renderings of identifiers. -/
def categoryMatches (q : Question) (category_id : Nat) : Bool :=
  pyStr q.category == pyStr category_id

/-- QUESTIONS_PER_PAGE of the source (line 7). -/
def QUESTIONS_PER_PAGE : Nat := 10

/-- paginate_questions of the source (lines 9-14): `page` is
`request.args.get('page', 1, type=int)` (absent or non-numeric collapses to
the default 1, modelled by `none`), and the slice
`questions[(page-1)*10 : (page-1)*10+10]` follows Python slice semantics. -/
def paginate_questions (page : Option Int) (selection : List Question) : List Question :=
  let p := page.getD 1
  let start := (p - 1) * (QUESTIONS_PER_PAGE : Int)
  let stop := start + (QUESTIONS_PER_PAGE : Int)
  let questions := selection.map Question.format
  pySlice start stop questions

structure CategoriesPayload where
  success : Bool
  categories : List (Nat × List Char)
deriving DecidableEq, Repr

structure QuestionsPayload where
  success : Bool
  questions : List Question
  total_questions : Nat
  categories : List (Nat × List Char)
  current_category : Option Nat
deriving DecidableEq, Repr

structure SearchPayload where
  success : Bool
  questions : List Question
  total_questions : Nat
  current_category : Option Nat
deriving DecidableEq, Repr

structure QuizPayload where
  success : Bool
  question : Option Question
deriving DecidableEq, Repr

structure ErrorPayload where
  success : Bool
  error : Nat
  message : List Char
deriving DecidableEq, Repr

/-- Error handlers of the source (lines 188-202): `abort(404)` and
`abort(422)` are turned into fixed failure payloads. -/
def errorResponse (code : Nat) : ErrorPayload :=
  if code = 404 then ⟨false, 404, "Resource not found".data⟩
  else ⟨false, 422, "Unprocessable entity".data⟩

/-- get_categories of the source (lines 48-56): the categories ordered by id;
an empty collection aborts with 404. -/
def get_categories (cats : List Category) : Except Nat CategoriesPayload :=
  let categories := sortByKey Category.id cats
  if categories.isEmpty then .error 404
  else .ok ⟨true, categories.map (fun c => (c.id, c.type))⟩

/-- get_questions of the source (lines 65-78): all questions ordered by id,
the requested page of them, 404 when that page is empty. -/
def get_questions (db : TriviaDB) (cats : List Category) (page : Option Int) :
    Except Nat QuestionsPayload :=
  let selection := sortByKey Question.id db.questions
  let current_questions := paginate_questions page selection
  let categories := sortByKey Category.id cats
  if current_questions.isEmpty then .error 404
  else .ok ⟨true, current_questions, selection.length,
    categories.map (fun c => (c.id, c.type)), none⟩

/-- read by primary key, `Question.query.get(id)` (spec §4.2's read; the
query itself lives in the external persistence collaborator): the stored row
with that id, if any. -/
def get_question (db : TriviaDB) (question_id : Nat) : Option Question :=
  db.questions.find? (fun q => q.id == question_id)

/-- delete_question of the source (lines 84-96): 404 when no row has the id,
otherwise the row is removed (`question.delete()` modelled from the spec:
models.py is not among the repository's files; §4.2 `delete(id)`). -/
def delete_question (db : TriviaDB) (question_id : Nat) : Except Nat Nat × TriviaDB :=
  match db.questions.find? (fun q => q.id == question_id) with
  | none => (.error 404, db)
  | some _ => (.ok question_id, ⟨db.questions.filter (fun q => q.id != question_id), db.nextId⟩)

/-- add_question of the source (lines 104-121): each field is
`data.get(...)` (`none` when absent), the guard is Python's
`not (question_text and answer and category and difficulty)`, so a missing
field, an empty text or a zero number aborts with 422; otherwise the row is
inserted (`question.insert()` modelled from the spec: models.py is not among
the repository's files; §4.2 `create` returns the newly assigned id, here
the next id of the persistence collaborator). -/
def add_question (db : TriviaDB) (question answer : Option (List Char))
    (category : Option Nat) (difficulty : Option Int) : Except Nat Nat × TriviaDB :=
  match question, answer, category, difficulty with
  | some qt, some an, some cat, some diff =>
    if qt.isEmpty || an.isEmpty || cat == 0 || diff == 0 then (.error 422, db)
    else (.ok db.nextId,
      ⟨db.questions ++ [⟨db.nextId, qt, an, cat, diff⟩], db.nextId + 1⟩)
  | _, _, _, _ => (.error 422, db)

/-- search_questions of the source (lines 129-140): `searchTerm` defaults to
the empty string, and the rows are filtered with
`Question.question.ilike(f'%{searchTerm}%')` — the term is interpolated into
the pattern as is, so `%` and `_` inside it keep their wildcard meaning.
An empty selection is still a success payload. -/
def search_questions (db : TriviaDB) (searchTerm : Option (List Char)) : SearchPayload :=
  let term := searchTerm.getD []
  let selection := db.questions.filter (fun q => ilike q.question ('%' :: (term ++ ['%'])))
  ⟨true, selection.map Question.format, selection.length, none⟩

/-- get_questions_by_category of the source (lines 146-155): the rows with
`Question.category == str(category_id)`; an empty selection is still a
success payload. -/
def get_questions_by_category (db : TriviaDB) (category_id : Nat) : SearchPayload :=
  let selection := db.questions.filter (fun q => categoryMatches q category_id)
  ⟨true, selection.map Question.format, selection.length, some category_id⟩

/-- candidate pool of play_quiz (source lines 170-173): all rows not among
`previous_questions` when the category id is the sentinel 0, otherwise the
rows of that category not among `previous_questions`. -/
def quizCandidates (db : TriviaDB) (category_id : Nat) (previous : List Nat) : List Question :=
  if category_id = 0 then
    db.questions.filter (fun q => !(previous.contains q.id))
  else
    db.questions.filter (fun q => categoryMatches q category_id && !(previous.contains q.id))

/-- play_quiz of the source (lines 164-181): `previous_questions` defaults
to `[]`, the category id to the sentinel 0; `random.choice` over the
non-empty candidate list is modelled by the index `pick % length`, so every
`pick` is one possible draw; an empty candidate list yields a success
payload with a null question. -/
def play_quiz (db : TriviaDB) (previous_questions : Option (List Nat))
    (quiz_category_id : Option Nat) (pick : Nat) : QuizPayload :=
  let previous := previous_questions.getD []
  let category_id := quiz_category_id.getD 0
  let questions := quizCandidates db category_id previous
  if h : questions = [] then ⟨true, none⟩
  else
    ⟨true, some ((questions.get
      ⟨pick % questions.length, Nat.mod_lt _ (List.length_pos.mpr h)⟩).format)⟩

/-- Example question used by the concrete instances below. -/
def exQ (i : Nat) (c : Nat) : Question := ⟨i, ['q'], ['a'], c, 1⟩

/-- 25 questions with ids 1..25, category 1. -/
def seq25 : List Question := (List.range 25).map (fun i => exQ (i + 1) 1)

/-- Stored collection holding the 25 questions. -/
def db25 : TriviaDB := ⟨seq25, 26⟩

/-- Stored collection holding 11 questions with ids 1..11. -/
def db11 : TriviaDB := ⟨(List.range 11).map (fun i => exQ (i + 1) 1), 12⟩

/-- Stored collection with one question of category 1. -/
def db1 : TriviaDB := ⟨[⟨1, ['x'], ['y'], 1, 1⟩], 2⟩

/-- Empty stored collection. -/
def dbEmpty : TriviaDB := ⟨[], 1⟩

/-- Stored collection with one question whose text is "ab". -/
def dbAB : TriviaDB := ⟨[⟨1, ['a', 'b'], ['c'], 1, 1⟩], 2⟩

/-! Helper lemmas. -/

theorem digitVal_digitChar {d : Nat} (h : d < 10) : digitVal (Nat.digitChar d) = d := by
  interval_cases d <;> rfl

theorem revDigitsVal_natDigitsRevFuel :
    ∀ f n, n ≤ f → revDigitsVal (natDigitsRevFuel f n) = n := by
  intro f
  induction f with
  | zero =>
    intro n hn
    interval_cases n
    rfl
  | succ f ih =>
    intro n hn
    match n with
    | 0 => rfl
    | n + 1 =>
      have hdiv : (n + 1) / 10 < n + 1 := Nat.div_lt_self (Nat.succ_pos n) (by decide)
      rw [natDigitsRevFuel, revDigitsVal, ih ((n + 1) / 10) (by omega),
        digitVal_digitChar (Nat.mod_lt _ (by decide))]
      exact Nat.mod_add_div (n + 1) 10

theorem revDigitsVal_pyDigits (n : Nat) : revDigitsVal (natDigitsRevFuel n n) = n :=
  revDigitsVal_natDigitsRevFuel n n (Nat.le_refl n)

theorem pyStr_injective {a b : Nat} (h : pyStr a = pyStr b) : a = b := by
  unfold pyStr at h
  by_cases ha : a = 0 <;> by_cases hb : b = 0
  · omega
  · rw [if_pos ha, if_neg hb] at h
    have h2 : natDigitsRevFuel b b = ['0'] := by
      have := congrArg List.reverse h
      simpa using this.symm
    have h3 := revDigitsVal_pyDigits b
    rw [h2] at h3
    simp [revDigitsVal, digitVal] at h3
    omega
  · rw [if_neg ha, if_pos hb] at h
    have h2 : natDigitsRevFuel a a = ['0'] := by
      have := congrArg List.reverse h
      simpa using this
    have h3 := revDigitsVal_pyDigits a
    rw [h2] at h3
    simp [revDigitsVal, digitVal] at h3
    omega
  · rw [if_neg ha, if_neg hb, List.reverse_inj] at h
    have := congrArg revDigitsVal h
    rwa [revDigitsVal_pyDigits, revDigitsVal_pyDigits] at this

theorem categoryMatches_iff (q : Question) (c : Nat) :
    categoryMatches q c = true ↔ q.category = c := by
  unfold categoryMatches
  simp only [beq_iff_eq]
  exact ⟨fun h => pyStr_injective h, fun h => by rw [h]⟩

theorem format_eq (q : Question) : q.format = q := rfl

theorem map_format (xs : List Question) : xs.map Question.format = xs := by
  induction xs with
  | nil => rfl
  | cons x xs ih => simp [List.map_cons, format_eq, ih]

theorem length_insertByKey {α : Type} (key : α → Nat) (x : α) (l : List α) :
    (insertByKey key x l).length = l.length + 1 := by
  induction l with
  | nil => rfl
  | cons y ys ih => by_cases h : key x ≤ key y <;> simp [insertByKey, h, ih]

theorem length_sortByKey {α : Type} (key : α → Nat) (l : List α) :
    (sortByKey key l).length = l.length := by
  induction l with
  | nil => rfl
  | cons x xs ih => simp [sortByKey, length_insertByKey, ih]

theorem sortByKey_eq_nil {α : Type} (key : α → Nat) (l : List α) :
    sortByKey key l = [] ↔ l = [] := by
  constructor
  · intro h
    have := length_sortByKey key l
    rw [h] at this
    exact List.length_eq_zero.mp this.symm
  · intro h
    rw [h]
    rfl

theorem pyIndex_nonneg {len : Nat} {i : Int} (h : 0 ≤ i) :
    pyIndex len i = min i.toNat len := by
  unfold pyIndex
  rw [if_neg (by omega)]

theorem pySlice_nonneg {α : Type} {s e : Int} (hs : 0 ≤ s) (he : s ≤ e) (xs : List α) :
    pySlice s e xs = (xs.drop s.toNat).take (e.toNat - s.toNat) := by
  unfold pySlice
  dsimp only
  rw [pyIndex_nonneg hs, pyIndex_nonneg (le_trans hs he)]
  have hab : s.toNat ≤ e.toNat := Int.toNat_le_toNat he
  by_cases hA : s.toNat ≤ xs.length
  · rw [Nat.min_eq_left hA]
    by_cases hB : e.toNat ≤ xs.length
    · rw [Nat.min_eq_left hB]
    · rw [Nat.min_eq_right (by omega)]
      rw [List.take_of_length_le (by simp only [List.length_drop]; omega),
        List.take_of_length_le (by simp only [List.length_drop]; omega)]
  · rw [Nat.min_eq_right (by omega)]
    rw [List.drop_eq_nil_of_le (le_of_not_le hA), List.drop_eq_nil_of_le (by omega)]
    simp

theorem paginate_pos {n : Int} (hn : 1 ≤ n) (xs : List Question) :
    paginate_questions (some n) xs = (xs.drop (10 * (n - 1).toNat)).take 10 := by
  unfold paginate_questions
  dsimp only
  simp only [Option.getD, QUESTIONS_PER_PAGE, map_format, Nat.cast_ofNat]
  rw [pySlice_nonneg (by omega) (by omega)]
  have h1 : ((n - 1) * (10 : Int)).toNat = 10 * (n - 1).toNat := by omega
  have h2 : ((n - 1) * (10 : Int) + 10).toNat - ((n - 1) * (10 : Int)).toNat = 10 := by
    omega
  rw [h2, h1]

theorem flatten_chunks {α : Type} (xs : List α) :
    ∀ k, ((List.range k).map (fun i => (xs.drop (10 * i)).take 10)).flatten
      = xs.take (10 * k) := by
  intro k
  induction k with
  | zero => simp
  | succ k ih =>
    rw [List.range_succ, List.map_append, List.flatten_append, ih]
    simp only [List.map_cons, List.map_nil, List.flatten_cons, List.flatten_nil,
      List.append_nil]
    rw [show 10 * (k + 1) = 10 * k + 10 by omega, List.take_add]

theorem paginate_zero (seq : List Question) : paginate_questions (some 0) seq = [] := by
  unfold paginate_questions pySlice pyIndex
  dsimp only
  norm_num

/-! Claim theorems. -/

/-- C2: for page size 10, every ordered question sequence and every page
number n ≥ 1, `paginate` returns exactly min(10, max(0, L − 10(n−1)))
elements, and concatenating pages 1 through ceil(L/10) reproduces the
original sequence in order with no duplicates or omissions. -/
theorem C2_pagination_bounds (seq : List Question) (n : Int) (hn : 1 ≤ n) :
    ((paginate_questions (some n) seq).length : Int)
      = min 10 (max 0 ((seq.length : Int) - 10 * (n - 1)))
    ∧ ((List.range ((seq.length + 9) / 10)).map
        (fun i : Nat => paginate_questions (some ((i : Int) + 1)) seq)).flatten = seq := by
  constructor
  · rw [paginate_pos hn]
    simp only [List.length_take, List.length_drop]
    omega
  · have h1 : ∀ i : Nat, paginate_questions (some ((i : Int) + 1)) seq
        = (seq.drop (10 * i)).take 10 := by
      intro i
      rw [paginate_pos (by omega)]
      congr 2
      omega
    rw [List.map_congr_left (fun i _ => h1 i), flatten_chunks]
    exact List.take_of_length_le (by omega)

/-- Witness for C2 at the 25-question sequence and page 2. -/
theorem C2_pagination_bounds_witness :
    ((paginate_questions (some 2) seq25).length : Int)
      = min 10 (max 0 ((seq25.length : Int) - 10 * (2 - 1)))
    ∧ ((List.range ((seq25.length + 9) / 10)).map
        (fun i : Nat => paginate_questions (some ((i : Int) + 1)) seq25)).flatten = seq25 :=
  C2_pagination_bounds seq25 2 (by norm_num)

/-- C10: on a non-empty collection, page number 0 yields an empty page and
hence a NotFound failure (the slice bounds become [−10, 0)); and a negative
page number selects elements counted from the end — page −1 of the
25-question sequence is its elements 5..14 — so P1's page formula does not
extend below page 1 (at page 0 it would predict 10 elements, not 0). -/
theorem C10_page_zero_and_negative (db : TriviaDB) (cats : List Category)
    (seq : List Question) (h : db.questions ≠ []) :
    get_questions db cats (some 0) = Except.error 404
    ∧ paginate_questions (some 0) seq = []
    ∧ paginate_questions (some (-1)) seq25 = (seq25.drop 5).take 10
    ∧ ((paginate_questions (some 0) seq25).length : Int)
        ≠ min 10 (max 0 ((seq25.length : Int) - 10 * ((0 : Int) - 1))) := by
  refine ⟨?_, paginate_zero seq, by decide, by decide⟩
  unfold get_questions
  dsimp only
  rw [paginate_zero]
  rfl

/-- Witness for C10 at the 25-question collection. -/
theorem C10_page_zero_and_negative_witness :
    get_questions db25 [] (some 0) = Except.error 404
    ∧ paginate_questions (some 0) [] = []
    ∧ paginate_questions (some (-1)) seq25 = (seq25.drop 5).take 10
    ∧ ((paginate_questions (some 0) seq25).length : Int)
        ≠ min 10 (max 0 ((seq25.length : Int) - 10 * ((0 : Int) - 1))) :=
  C10_page_zero_and_negative db25 [] [] (by decide)

/-- C8: the plain listing's `total_questions` always equals the size of the
full question collection, not the page's size; with exactly 11 questions
stored, page 2 returns exactly 1 question and `total_questions` 11. -/
theorem C8_total_questions (db db2 : TriviaDB) (cats cats2 : List Category)
    (page : Option Int) (r : QuestionsPayload)
    (h : get_questions db cats page = Except.ok r)
    (h11 : db2.questions.length = 11) :
    r.total_questions = db.questions.length
    ∧ (get_questions db2 cats2 (some 2)).toOption.map
        (fun p => (p.questions.length, p.total_questions)) = some (1, 11) := by
  constructor
  · unfold get_questions at h
    dsimp only at h
    split at h
    · exact absurd h (by simp)
    · cases h
      exact length_sortByKey Question.id db.questions
  · have hsel : (sortByKey Question.id db2.questions).length = 11 := by
      rw [length_sortByKey]
      exact h11
    have hcur : (paginate_questions (some 2) (sortByKey Question.id db2.questions)).length
        = 1 := by
      rw [paginate_pos (by norm_num)]
      simp only [List.length_take, List.length_drop, hsel]
      decide
    unfold get_questions
    dsimp only
    rw [if_neg (by rw [List.isEmpty_iff_length_eq_zero, hcur]; omega)]
    dsimp only [Except.toOption, Option.map]
    rw [hcur, hsel]

/-- Witness for C8 at the 11-question collection, pages 1 and 2. -/
theorem C8_total_questions_witness :
    (⟨true, (List.range 10).map (fun i => exQ (i + 1) 1), 11, [], none⟩
        : QuestionsPayload).total_questions = db11.questions.length
    ∧ (get_questions db11 [] (some 2)).toOption.map
        (fun p => (p.questions.length, p.total_questions)) = some (1, 11) :=
  C8_total_questions db11 db11 [] [] (some 1)
    ⟨true, (List.range 10).map (fun i => exQ (i + 1) 1), 11, [], none⟩
    (by rfl) (by decide)

/-- C4: an empty plain question page and an empty category collection are
escalated to NotFound (404) failures, while search, the category-filtered
listing and the quiz selector answer success payloads whatever their
selection (in particular when it is empty), and a 404 is rendered as a
failure response. -/
theorem C4_empty_result_policy :
    (∀ db cats page, get_questions db cats page = Except.error 404
        ↔ paginate_questions page (sortByKey Question.id db.questions) = [])
    ∧ (∀ cats, get_categories cats = Except.error 404 ↔ cats = [])
    ∧ (∀ db t, (search_questions db t).success = true)
    ∧ (∀ db c, (get_questions_by_category db c).success = true)
    ∧ (∀ db prev cat pick, (play_quiz db prev cat pick).success = true)
    ∧ (errorResponse 404).success = false := by
  refine ⟨?_, ?_, fun db t => rfl, fun db c => rfl, ?_, rfl⟩
  · intro db cats page
    unfold get_questions
    dsimp only
    by_cases hc : paginate_questions page (sortByKey Question.id db.questions) = []
    · rw [if_pos (List.isEmpty_iff.mpr hc)]
      simp [hc]
    · rw [if_neg (fun h => hc (List.isEmpty_iff.mp h))]
      simp [hc]
  · intro cats
    unfold get_categories
    dsimp only
    by_cases hc : sortByKey Category.id cats = []
    · rw [if_pos (List.isEmpty_iff.mpr hc)]
      simp [(sortByKey_eq_nil Category.id cats).mp hc]
    · rw [if_neg (fun h => hc (List.isEmpty_iff.mp h))]
      have hne : cats ≠ [] := fun h => hc (by rw [h]; rfl)
      simp [hne]
  · intro db prev cat pick
    unfold play_quiz
    dsimp only
    split <;> rfl

/-- C7: whenever the quiz candidate pool — the requested category minus the
exclusion set, or the whole collection minus the exclusion set when the
category is the sentinel 0 — is empty, play_quiz answers a success payload
with a null question, not an error. -/
theorem C7_quiz_exhaustion (db : TriviaDB) (prev : List Nat) (cat : Nat) (pick : Nat)
    (h : quizCandidates db cat prev = []) :
    play_quiz db (some prev) (some cat) pick = ⟨true, none⟩ := by
  unfold play_quiz
  dsimp only [Option.getD]
  rw [dif_pos h]

/-- Witness for C7: the only stored question is already excluded. -/
theorem C7_quiz_exhaustion_witness :
    play_quiz db1 (some [1]) (some 1) 0 = ⟨true, none⟩ :=
  C7_quiz_exhaustion db1 [1] 1 0 (by decide)

/-- C1: a non-null question served by play_quiz is never one of the excluded
ids, and when the category argument is nonzero its category equals that
category id. -/
theorem C1_quiz_exclusion (db : TriviaDB) (prev : List Nat) (cat : Nat) (pick : Nat)
    (q : Question) (h : (play_quiz db (some prev) (some cat) pick).question = some q) :
    q.id ∉ prev ∧ (cat ≠ 0 → q.category = cat) := by
  unfold play_quiz at h
  dsimp only [Option.getD] at h
  by_cases he : quizCandidates db cat prev = []
  · rw [dif_pos he] at h
    exact absurd h (by simp)
  · rw [dif_neg he] at h
    dsimp only at h
    rw [Option.some_inj] at h
    have hq : q ∈ quizCandidates db cat prev := by
      rw [← h, format_eq]
      exact List.get_mem _ _ _
    unfold quizCandidates at hq
    by_cases hc0 : cat = 0
    · rw [if_pos hc0] at hq
      have hp := (List.mem_filter.mp hq).2
      constructor
      · intro hin
        rw [Bool.not_eq_true'] at hp
        exact Bool.false_ne_true (hp.symm.trans (List.elem_iff.mpr hin))
      · intro hne
        exact absurd hc0 hne
    · rw [if_neg hc0] at hq
      have hp := (List.mem_filter.mp hq).2
      rw [Bool.and_eq_true] at hp
      constructor
      · intro hin
        have h2 := hp.2
        rw [Bool.not_eq_true'] at h2
        exact Bool.false_ne_true (h2.symm.trans (List.elem_iff.mpr hin))
      · intro hne
        exact (categoryMatches_iff q cat).mp hp.1

/-- Witness for C1: one stored question of category 1, no exclusions. -/
theorem C1_quiz_exclusion_witness :
    (1 : Nat) ∉ ([] : List Nat)
    ∧ ((1 : Nat) ≠ 0 → (⟨1, ['x'], ['y'], 1, 1⟩ : Question).category = 1) :=
  C1_quiz_exclusion db1 [] 1 0 ⟨1, ['x'], ['y'], 1, 1⟩ (by decide)

/-- C6: the category-filtered query returns exactly the stored questions
whose category identifier equals the requested one (the textual comparison
`Question.category == str(category_id)` compares the identifiers, whatever
representation each side carries), and the quiz selector's nonzero-category
pool is that same filtered selection minus the exclusion set. -/
theorem C6_category_comparison (db : TriviaDB) (c : Nat) (prev : List Nat)
    (q : Question) (hc : c ≠ 0) :
    (q ∈ (get_questions_by_category db c).questions ↔ q ∈ db.questions ∧ q.category = c)
    ∧ quizCandidates db c prev
        = ((get_questions_by_category db c).questions).filter
            (fun r => !(prev.contains r.id)) := by
  constructor
  · unfold get_questions_by_category
    dsimp only
    rw [map_format, List.mem_filter]
    exact and_congr_right fun _ => categoryMatches_iff q c
  · unfold quizCandidates get_questions_by_category
    dsimp only
    rw [if_neg hc, map_format, List.filter_filter]
    exact List.filter_congr fun r _ => Bool.and_comm (categoryMatches r c) _

/-- Witness for C6 at category 1 over the one-question collection. -/
theorem C6_category_comparison_witness :
    ((⟨1, ['x'], ['y'], 1, 1⟩ : Question) ∈ (get_questions_by_category db1 1).questions
      ↔ (⟨1, ['x'], ['y'], 1, 1⟩ : Question) ∈ db1.questions
        ∧ (⟨1, ['x'], ['y'], 1, 1⟩ : Question).category = 1)
    ∧ quizCandidates db1 1 [2]
        = ((get_questions_by_category db1 1).questions).filter
            (fun r => !(([2] : List Nat).contains r.id)) :=
  C6_category_comparison db1 1 [2] ⟨1, ['x'], ['y'], 1, 1⟩ (by decide)

/-- C9: creating a question with all four fields valid returns an id whose
read yields a question equal in every field; deleting that id then makes
the read return not-found, and deleting a never-assigned id returns
NotFound with the collection unchanged. -/
theorem C9_create_delete_round_trip (db : TriviaDB) (qt an : List Char) (cat : Nat)
    (diff : Int) (j : Nat)
    (fresh : ∀ r ∈ db.questions, r.id < db.nextId)
    (hqt : qt ≠ []) (han : an ≠ []) (hcat : cat ≠ 0) (hdiff : diff ≠ 0)
    (hj : ∀ r ∈ db.questions, r.id ≠ j) :
    (add_question db (some qt) (some an) (some cat) (some diff)).1 = Except.ok db.nextId
    ∧ get_question (add_question db (some qt) (some an) (some cat) (some diff)).2
        db.nextId = some ⟨db.nextId, qt, an, cat, diff⟩
    ∧ (delete_question (add_question db (some qt) (some an) (some cat) (some diff)).2
        db.nextId).1 = Except.ok db.nextId
    ∧ get_question
        (delete_question (add_question db (some qt) (some an) (some cat) (some diff)).2
          db.nextId).2 db.nextId = none
    ∧ (delete_question db j).1 = Except.error 404
    ∧ (delete_question db j).2 = db := by
  have hguard : (qt.isEmpty || an.isEmpty || cat == 0 || diff == 0) = false := by
    simp only [Bool.or_eq_false_iff, List.isEmpty_eq_false, beq_eq_false_iff_ne]
    exact ⟨⟨⟨hqt, han⟩, hcat⟩, hdiff⟩
  have hadd : add_question db (some qt) (some an) (some cat) (some diff)
      = (Except.ok db.nextId,
         ⟨db.questions ++ [⟨db.nextId, qt, an, cat, diff⟩], db.nextId + 1⟩) := by
    unfold add_question
    dsimp only
    rw [if_neg (by rw [hguard]; exact Bool.false_ne_true)]
  have hold : db.questions.find? (fun r => r.id == db.nextId) = none :=
    List.find?_eq_none.mpr fun x hx => by
      simp only [beq_iff_eq]
      exact Nat.ne_of_lt (fresh x hx)
  have hfind : (db.questions ++ [(⟨db.nextId, qt, an, cat, diff⟩ : Question)]).find?
      (fun r => r.id == db.nextId) = some (⟨db.nextId, qt, an, cat, diff⟩ : Question) := by
    rw [List.find?_append, hold, Option.none_or, List.find?_singleton]
    simp
  have hjnone : db.questions.find? (fun r => r.id == j) = none :=
    List.find?_eq_none.mpr fun x hx => by
      simp only [beq_iff_eq]
      exact hj x hx
  refine ⟨by rw [hadd], ?_, ?_, ?_, ?_, ?_⟩
  · rw [hadd]
    unfold get_question
    exact hfind
  · rw [hadd]
    unfold delete_question
    dsimp only
    rw [hfind]
  · rw [hadd]
    unfold delete_question get_question
    dsimp only
    rw [hfind]
    dsimp only
    exact List.find?_eq_none.mpr fun x hx => by
      have := (List.mem_filter.mp hx).2
      rw [bne_iff_ne] at this
      simp only [beq_iff_eq]
      exact this
  · unfold delete_question
    rw [hjnone]
  · unfold delete_question
    rw [hjnone]

/-- Witness for C9: create "x"/"y" in category 1 at difficulty 2 on the
empty collection; 7 was never assigned. -/
theorem C9_create_delete_round_trip_witness :
    (add_question dbEmpty (some ['x']) (some ['y']) (some 1) (some 2)).1
        = Except.ok dbEmpty.nextId
    ∧ get_question (add_question dbEmpty (some ['x']) (some ['y']) (some 1) (some 2)).2
        dbEmpty.nextId = some ⟨dbEmpty.nextId, ['x'], ['y'], 1, 2⟩
    ∧ (delete_question (add_question dbEmpty (some ['x']) (some ['y']) (some 1) (some 2)).2
        dbEmpty.nextId).1 = Except.ok dbEmpty.nextId
    ∧ get_question
        (delete_question
          (add_question dbEmpty (some ['x']) (some ['y']) (some 1) (some 2)).2
          dbEmpty.nextId).2 dbEmpty.nextId = none
    ∧ (delete_question dbEmpty 7).1 = Except.error 404
    ∧ (delete_question dbEmpty 7).2 = dbEmpty :=
  C9_create_delete_round_trip dbEmpty ['x'] ['y'] 1 2 7 (by simp [dbEmpty])
    (by decide) (by decide) (by decide) (by decide) (by simp [dbEmpty])

/-- C5 as stated is false on the code: with question "X", answer "Y",
category 1 and difficulty 0 no field is empty or absent (difficulty is an
integer and the data model enforces no range), yet the create operation
answers 422, because Python truthiness also rejects the number 0. -/
theorem C5_counterexample :
    ¬ ((some ['X'] : Option (List Char)) = none
        ∨ (some ['X'] : Option (List Char)) = some [])
    ∧ ¬ ((some ['Y'] : Option (List Char)) = none
        ∨ (some ['Y'] : Option (List Char)) = some [])
    ∧ (some 1 : Option Nat) ≠ none
    ∧ (some 0 : Option Int) ≠ none
    ∧ (add_question dbEmpty (some ['X']) (some ['Y']) (some 1) (some 0)).1
        = Except.error 422 :=
  ⟨by simp, by simp, by simp, by simp, rfl⟩

/-- C5 (amended): the create operation fails with Unprocessable (422) if
and only if one of the four fields is Python-falsy — absent, an empty text,
or the number 0 (so a difficulty or category of 0 is also rejected, beyond
the claim's "empty or absent"); otherwise it succeeds, returns the newly
assigned id and appends the new question. -/
theorem C5_create_validation (db : TriviaDB) (q a : Option (List Char))
    (c : Option Nat) (d : Option Int) :
    ((add_question db q a c d).1 = Except.error 422
      ↔ (q = none ∨ q = some [] ∨ a = none ∨ a = some []
          ∨ c = none ∨ c = some 0 ∨ d = none ∨ d = some 0))
    ∧ (¬ (q = none ∨ q = some [] ∨ a = none ∨ a = some []
          ∨ c = none ∨ c = some 0 ∨ d = none ∨ d = some 0) →
        add_question db q a c d
          = (Except.ok db.nextId,
             ⟨db.questions ++ [⟨db.nextId, q.getD [], a.getD [], c.getD 0, d.getD 0⟩],
              db.nextId + 1⟩)) := by
  rcases q with _ | qt <;> rcases a with _ | an <;>
    rcases c with _ | cv <;> rcases d with _ | dv <;>
    simp only [add_question, Option.getD] <;>
    try simp
  by_cases h1 : qt = [] <;> by_cases h2 : an = [] <;>
    by_cases h3 : cv = 0 <;> by_cases h4 : dv = 0 <;>
    simp [h1, h2, h3, h4]

/-- C3 fails on the code (the spec and the route's own comment, source
lines 125-127, call for substring matching): searching for the term "_"
returns the stored question "ab" although "_" is not a substring of "ab" —
the term is interpolated into the ILIKE pattern unescaped, so `_` and `%`
keep their wildcard meaning.  The empty term does return the whole
collection. -/
theorem C3_search_wildcard :
    (search_questions dbAB (some ['_'])).questions = [⟨1, ['a', 'b'], ['c'], 1, 1⟩]
    ∧ containsSub (pyLower ['_']) (pyLower ['a', 'b']) = false
    ∧ (search_questions dbAB (some [])).questions = dbAB.questions
    ∧ (search_questions dbAB none).questions = dbAB.questions :=
  ⟨rfl, rfl, rfl, rfl⟩

end Trivia
